import Mathlib

/-!
# Verification of the YT-DOWNLOADER backend (`src/backend/main.py`)

Shallow embedding of the request-admission, caching and download-streaming
logic of `backend/main.py`, together with proofs about the claims of the
specification.

Conventions of the embedding:
* Python `time.time()` / `datetime.utcnow()` timestamps are modelled as
  integers (seconds); `timedelta(hours=1)` is `3600`.  The code uses its
  (real-valued) timestamps only through subtraction and order comparison,
  so the integer model satisfies exactly the same algebra.
* The process-wide dictionaries (`rate_limit_store`, the `cache/` directory,
  the `downloads/` directory) are modelled as total functions from keys to
  values resp. `Option` values, with the dictionary default (`[]` / absent
  file) as the value outside the stored domain; mutation is explicit state
  passing.
* Fallible Python code (raising `ValueError` / HTTP exceptions) is modelled
  with `Except` / explicit response constructors.
-/

namespace YTDL

/-! ## Rate limiting (`main.py` lines 42-48, 82-95) -/

/-- The `RATE_LIMIT` configuration dictionary (`main.py` lines 43-46):
`window_seconds` and `max_requests`. -/
structure RateLimitConfig where
  window_seconds : ℤ
  max_requests : ℕ
  deriving DecidableEq

/-- The module-level constant `RATE_LIMIT = {"window_seconds": 3600, "max_requests": 100}`. -/
def RATE_LIMIT : RateLimitConfig := ⟨3600, 100⟩

/-- The mutable dictionary `rate_limit_store : Dict[str, List[float]]`
(`main.py` line 48), as a total function with default `[]` (the code inserts
`[]` for a missing key before using it, lines 84-85). -/
def RateStore : Type := String → List ℤ

/-- The initial, empty `rate_limit_store`. -/
def emptyRateStore : RateStore := fun _ => []

/-- Line 88-89 of `check_rate_limit`: the list comprehension
`[t for t in rate_limit_store[ip] if current_time - t < RATE_LIMIT["window_seconds"]]`. -/
def purgeOld (window : ℤ) (current_time : ℤ) (ts : List ℤ) : List ℤ :=
  ts.filter (fun t => current_time - t < window)

/-- Result of one `check_rate_limit` call: the returned `bool` and the
`rate_limit_store` after the call. -/
structure RLResult where
  admitted : Bool
  store : RateStore

/-- `check_rate_limit(ip)` (`main.py` lines 82-95), with the ambient
`time.time()` value and the store passed explicitly.  The code first replaces
`rate_limit_store[ip]` by its purged version (lines 88-89); if the purged
length reaches `max_requests` it returns `False` (the purge is kept but no
new timestamp is recorded); otherwise it appends `current_time` and returns
`True`. -/
def check_rate_limit (cfg : RateLimitConfig) (current_time : ℤ) (ip : String)
    (store : RateStore) : RLResult :=
  let ts := purgeOld cfg.window_seconds current_time (store ip)
  if ts.length ≥ cfg.max_requests then
    ⟨false, fun k => if k = ip then ts else store k⟩
  else
    ⟨true, fun k => if k = ip then ts ++ [current_time] else store k⟩

/-! ## Metadata cache (`main.py` lines 38-40, 97-115) -/

/-- A `VideoFormat` record (`main.py` lines 63-71). -/
structure VideoFormat where
  format_id : String
  ext : String
  quality : String
  filesize : Option ℤ
  resolution : Option String
  fps : Option ℤ
  vcodec : Option String
  acodec : Option String
  deriving DecidableEq

/-- A `VideoInfo` record (`main.py` lines 73-80). -/
structure VideoInfo where
  title : String
  thumbnail : String
  duration : ℤ
  formats : List VideoFormat
  description : Option String
  view_count : Option ℤ
  upload_date : Option String
  deriving DecidableEq

/-- The JSON object written to a cache file by `save_cache_info`
(`main.py` lines 110-113): `{'cache_time': ..., 'info': ...}`. -/
structure CacheEntry where
  cache_time : ℤ
  info : VideoInfo
  deriving DecidableEq

/-- The `cache/` directory: a map from file paths to parsed cache entries
(`None` = the file does not exist). -/
def CacheFS : Type := String → Option CacheEntry

/-- The empty `cache/` directory. -/
def emptyCacheFS : CacheFS := fun _ => none

/-- `get_cache_key(video_id)` (`main.py` lines 97-98): `CACHE_DIR / f"{video_id}.json"`. -/
def get_cache_key (video_id : String) : String :=
  "cache/" ++ video_id ++ ".json"

/-- `get_cached_info(video_id)` (`main.py` lines 100-107), with `datetime.utcnow()`
passed explicitly as `now`.  Returns the looked-up value together with the
cache directory after the call (the function only reads: it never deletes a
stale file).  A fresh entry is one with `now - cache_time < timedelta(hours=1)`. -/
def get_cached_info (cfs : CacheFS) (now : ℤ) (video_id : String) :
    Option VideoInfo × CacheFS :=
  (match cfs (get_cache_key video_id) with
   | some e => if now - e.cache_time < 3600 then some e.info else none
   | none => none,
   cfs)

/-- `save_cache_info(video_id, info)` (`main.py` lines 109-115): writes
`{'cache_time': now, 'info': info}` to the cache file, overwriting any
previous content. -/
def save_cache_info (cfs : CacheFS) (now : ℤ) (video_id : String)
    (info : VideoInfo) : CacheFS :=
  fun k => if k = get_cache_key video_id then some ⟨now, info⟩ else cfs k

/-! ## URL parsing: `VideoURL.video_id` (`main.py` lines 50-61)

`urlparse` itself is Python standard-library glue (an external collaborator
per the spec); the embedding starts from its output: the `netloc`, `path`
and `query` components of the request URL.  The substring test `'youtu.be'
in parsed.netloc`, the slicing `parsed.path[1:]` and the query-dictionary
construction `dict(q.split('=') for q in parsed.query.split('&') if '=' in q)`
are translated character-for-character. -/

/-- Output of `urlparse(str(self.url))` for the request URL. -/
structure ParsedUrl where
  netloc : String
  path : String
  query : String

/-- `needle` occurs contiguously at the head of `hay` (Python `str.startswith`,
used to build the `in` substring test). -/
def listStartsWith : List Char → List Char → Bool
  | [], _ => true
  | _ :: _, [] => false
  | a :: as, b :: bs => a = b && listStartsWith as bs

/-- `needle in hay` for Python strings: `needle` occurs contiguously somewhere
in `hay`. -/
def strContains (hay needle : String) : Bool :=
  go needle.toList hay.toList
where
  go (needle : List Char) : List Char → Bool
    | [] => listStartsWith needle []
    | a :: t => listStartsWith needle (a :: t) || go needle t

/-- Python `s.split(c)` for a one-character separator `c`: splits into the
(possibly empty) pieces between occurrences of `c`; the empty string yields
`[""]`. -/
def pySplit (c : Char) : List Char → List (List Char)
  | [] => [[]]
  | a :: t =>
    match pySplit c t with
    | [] => [[]]
    | h :: r => if a = c then [] :: h :: r else (a :: h) :: r

/-- The lookup `query.get('v', ...)` on the dictionary built from the query
string: `dict(...)` keeps the LAST binding for a repeated key. -/
def pyDictGet (l : List (List Char × List Char)) (k : List Char) :
    Option (List Char) :=
  l.foldl (fun acc p => if p.1 = k then some p.2 else acc) none

/-- The expression `dict(q.split('=') for q in parsed.query.split('&') if '=' in q)`
(`main.py` line 59).  A piece that contains `'='` but splits into more than
two parts (e.g. `"v=a=b"`) makes the Python `dict(...)` constructor raise a
`ValueError`, modelled as `Except.error`. -/
def pyQueryDict (query : String) : Except String (List (List Char × List Char)) :=
  ((pySplit '&' query.toList).filter (fun q => q.contains '=')).mapM
    (fun q =>
      match pySplit '=' q with
      | [k, v] => Except.ok (k, v)
      | _ => Except.error "dictionary update sequence element has invalid length")

/-- The property `VideoURL.video_id` (`main.py` lines 53-61).  Returns the
derived content identifier, or `Except.error` for the `ValueError` raised on
line 61 (or inside the `dict(...)` construction on line 59). -/
def video_id (u : ParsedUrl) : Except String String :=
  if strContains u.netloc "youtu.be" then
    Except.ok (String.mk (u.path.toList.drop 1))
  else if strContains u.netloc "youtube.com" then
    match pyQueryDict u.query with
    | Except.ok d => Except.ok (String.mk ((pyDictGet d ("v".toList)).getD []))
    | Except.error msg => Except.error msg
  else
    Except.error "Invalid YouTube URL"

/-! ## Metadata service: `get_video_info` (`main.py` lines 138-201) -/

/-- One entry of `info['formats']` as returned by the extraction engine
(`yt_dlp`): the fields the handler reads, each through `f.get(...)` and hence
optional (except `format_id`, read with `f['format_id']`). -/
structure RawFormat where
  format_id : String
  ext : Option String
  format_note : Option String
  filesize : Option ℤ
  resolution : Option String
  fps : Option ℤ
  vcodec : Option String
  acodec : Option String
  deriving DecidableEq

/-- The engine metadata dictionary `info` returned by
`ydl.extract_info(url, download=False)`: the fields the handler reads. -/
structure RawInfo where
  title : String
  thumbnail : String
  duration : ℤ
  formats : List RawFormat
  description : Option String
  view_count : Option ℤ
  upload_date : Option String
  deriving DecidableEq

/-- Outcome of the engine call `ydl.extract_info(str(video.url), download=False)`
(an external collaborator): structured metadata, a `yt_dlp.utils.DownloadError`,
or any other exception. -/
inductive EngineInfo where
  | ok (info : RawInfo)
  | downloadErr (msg : String)
  | otherErr (msg : String)
  deriving DecidableEq

/-- The filter guard of the `formats` list comprehension (`main.py` line 178):
`f.get('ext') in ['mp4', 'webm', 'm4a', 'mp3']` (a missing `ext` gives `None`,
which is not in the list). -/
def allowedExt (f : RawFormat) : Bool :=
  match f.ext with
  | some e => ["mp4", "webm", "m4a", "mp3"].contains e
  | none => false

/-- The `VideoFormat(...)` constructor call of the comprehension
(`main.py` lines 167-176): `ext` and `quality` default to `''`. -/
def shapeFormat (f : RawFormat) : VideoFormat :=
  ⟨f.format_id, f.ext.getD "", f.format_note.getD "", f.filesize,
   f.resolution, f.fps, f.vcodec, f.acodec⟩

/-- The `VideoInfo(...)` assembly (`main.py` lines 166-189): renditions are
filtered to the ext allow-list, then shaped. -/
def shapeInfo (raw : RawInfo) : VideoInfo :=
  ⟨raw.title, raw.thumbnail, raw.duration,
   (raw.formats.filter allowedExt).map shapeFormat,
   raw.description, raw.view_count, raw.upload_date⟩

/-- HTTP-level outcome of a `/api/video-info` request. -/
inductive MetaResponse where
  | success (v : VideoInfo)
  | httpError (status : ℕ) (detail : String)
  deriving DecidableEq

/-- Result of one `get_video_info` call: the response, the cache directory
after the call, and whether the extraction engine was invoked. -/
structure MetaResult where
  response : MetaResponse
  cacheAfter : CacheFS
  engineCalled : Bool

/-- The handler `get_video_info` (`main.py` lines 138-201), with the ambient
clock, cache directory and engine outcome passed explicitly.

Control flow of the source: `video.video_id` is evaluated first (line 142,
inside the `try`); a `ValueError` from it is caught by the blanket
`except Exception` (line 199) and re-raised as `HTTPException(500, ...)` —
not by the `except yt_dlp.utils.DownloadError` branch, since `ValueError`
is not a `DownloadError`.  A cache hit returns immediately without touching
the engine.  On a miss the engine is called; `DownloadError` maps to 400
(line 198), any other exception to 500 (line 201); on success the shaped
`VideoInfo` is cached (line 192) and returned. -/
def get_video_info (u : ParsedUrl) (cfs : CacheFS) (now : ℤ) (eng : EngineInfo) :
    MetaResult :=
  match video_id u with
  | Except.error msg =>
      ⟨.httpError 500 ("An unexpected error occurred: " ++ msg), cfs, false⟩
  | Except.ok vid =>
      match (get_cached_info cfs now vid).1 with
      | some info => ⟨.success info, cfs, false⟩
      | none =>
          match eng with
          | .downloadErr m =>
              ⟨.httpError 400 ("Video download error: " ++ m), cfs, true⟩
          | .otherErr m =>
              ⟨.httpError 500 ("An unexpected error occurred: " ++ m), cfs, true⟩
          | .ok raw =>
              ⟨.success (shapeInfo raw),
               save_cache_info cfs now vid (shapeInfo raw), true⟩

/-! ## Download pipeline: `download_video` (`main.py` lines 203-260) -/

/-- The `downloads/` directory (and more generally the filesystem the
artifact lives in): file path ↦ byte content (`none` = no such file).
Bytes are modelled as naturals. -/
def FileFS : Type := String → Option (List ℕ)

/-- Outcome of `ydl.extract_info(str(video.url), download=True)` followed by
`ydl.prepare_filename(info)`: the resolved artifact path, a
`yt_dlp.utils.DownloadError`, or any other exception. -/
inductive EngineDownload where
  | ok (filename : String)
  | downloadErr (msg : String)
  | otherErr (msg : String)
  deriving DecidableEq

/-- HTTP-level outcome of a `/api/download` request: either a
`StreamingResponse` over `iterfile()` for the given artifact (with its
`Content-Disposition` header), or an `HTTPException`. -/
inductive DownloadResponse where
  | stream (filename : String) (disposition : String)
  | httpError (status : ℕ) (detail : String)
  deriving DecidableEq

/-- `os.path.basename(filename)` (`main.py` line 251): the component after
the last `/`. -/
def basename (s : String) : String :=
  (s.splitOn "/").getLastD s

/-- The handler `download_video` (`main.py` lines 203-260) up to the point
where the `StreamingResponse` is handed to the framework (the generator
`iterfile` itself runs later; see `iterfile` below).

Control flow of the source: a `DownloadError` from the engine maps to 400
(line 257), any other exception to 500 (line 260).  When the engine succeeds
but `os.path.exists(filename)` is false, line 238 raises
`HTTPException(404, "File not found after download")` — but that exception
is raised inside the `try`, `HTTPException` is not a `DownloadError`, so the
blanket `except Exception` (line 258) catches it and re-raises
`HTTPException(500, f"An unexpected error occurred: {str(e)}")`; Starlette's
`HTTPException.__str__` renders as `"404: File not found after download"`.
The handler itself never deletes anything. -/
def download_video (fs : FileFS) (eng : EngineDownload) : DownloadResponse :=
  match eng with
  | .downloadErr m => .httpError 400 ("Video download error: " ++ m)
  | .otherErr m => .httpError 500 ("An unexpected error occurred: " ++ m)
  | .ok filename =>
      if (fs filename).isSome then
        .stream filename
          ("attachment; filename=\"" ++ basename filename ++ "\"")
      else
        .httpError 500
          ("An unexpected error occurred: " ++ "404: File not found after download")

/-! ## The streaming generator `iterfile` (`main.py` lines 240-245)

```python
def iterfile():
    with open(filename, 'rb') as f:
        while chunk := f.read(8192):
            yield chunk
    # Clean up after streaming
    os.unlink(filename)
```

The `while` loop reads successive 8192-byte chunks and stops at the first
empty read; `os.unlink(filename)` stands AFTER the `with` block, not in a
`try/finally`, so it is reached only when the loop runs to exhaustion.
Python generator semantics for the three ways a consumer can stop:

* normal completion — the consumer drains every chunk; the loop exits,
  the `with` closes the file, `os.unlink` runs;
* error raised mid-stream — the exception propagates out of the suspended
  generator frame; the `with` closes the file, control never reaches the
  statement after the `with`, so `os.unlink` does NOT run;
* consumer disconnect — the framework closes the generator, which raises
  `GeneratorExit` at the suspended `yield`; the `with` closes the file,
  `GeneratorExit` propagates, and again `os.unlink` does NOT run.

If the file does not exist, `open` raises before the first `yield` and
`os.unlink` is never reached either. -/

/-- `f.read(8192)` iterated: the finite list of chunks produced by the
`while chunk := f.read(8192)` loop on a file with contents `d`.  Structural
recursion on a fuel that starts at `d.length` (each iteration consumes at
least one byte of a non-empty rest). -/
def byteChunksAux : ℕ → List ℕ → List (List ℕ)
  | _, [] => []
  | 0, _ :: _ => []
  | fuel + 1, a :: t => ((a :: t).take 8192) :: byteChunksAux fuel ((a :: t).drop 8192)

/-- The chunk sequence streamed for file contents `d`. -/
def byteChunks (d : List ℕ) : List (List ℕ) :=
  byteChunksAux d.length d

/-- How the consumption of the streamed response ends. -/
inductive ExitMode where
  | normal
  | errorAt (n : ℕ)
  | disconnectAt (n : ℕ)
  deriving DecidableEq

/-- What one run of the generator leaves behind: the chunks actually handed
to the consumer, and the filesystem when the generator frame is gone. -/
structure StreamOutcome where
  sent : List (List ℕ)
  fsAfter : FileFS

/-- One complete run of `iterfile()` for artifact `filename` under exit mode
`mode`, per the generator semantics described above: only a run that drains
the loop to exhaustion reaches the `os.unlink(filename)` after the `with`
block; an error or a disconnect after `n` chunks abandons the frame with the
file still on disk. -/
def iterfile (fs : FileFS) (filename : String) : ExitMode → StreamOutcome
  | .normal =>
      match fs filename with
      | some d => ⟨byteChunks d, fun k => if k = filename then none else fs k⟩
      | none => ⟨[], fs⟩
  | .errorAt n => ⟨(byteChunks ((fs filename).getD [])).take n, fs⟩
  | .disconnectAt n => ⟨(byteChunks ((fs filename).getD [])).take n, fs⟩

/-! ## Concrete instances used by witnesses and counterexamples -/

/-- A youtube.com URL whose query has no `v` parameter: its derived
identifier is the empty string. -/
def urlNoV : ParsedUrl := ⟨"www.youtube.com", "/watch", "x=1"⟩

/-- A URL on a host that is neither `youtu.be` nor `youtube.com`. -/
def urlBadHost : ParsedUrl := ⟨"example.com", "/watch", "v=abc"⟩

/-- A well-formed youtube.com watch URL with identifier `abc`. -/
def urlGood : ParsedUrl := ⟨"www.youtube.com", "/watch", "v=abc"⟩

/-- Engine metadata with no renditions. -/
def rawEmpty : RawInfo := ⟨"T", "Th", 1, [], none, none, none⟩

/-- A rendition with an allow-listed `ext`. -/
def fmtMp4 : RawFormat := ⟨"22", some "mp4", some "720p", some 1000, some "1280x720", some 30, some "avc1", some "mp4a"⟩

/-- A rendition with an `ext` outside the allow-list. -/
def fmtFlv : RawFormat := ⟨"5", some "flv", some "240p", none, none, none, none, none⟩

/-- A rendition with no `ext` field at all. -/
def fmtNoExt : RawFormat := ⟨"x", none, none, none, none, none, none, none⟩

/-- Engine metadata with three renditions, one of them allow-listed. -/
def rawMixed : RawInfo := ⟨"T", "Th", 1, [fmtMp4, fmtFlv, fmtNoExt], none, none, none⟩

/-- A concrete `VideoInfo` payload. -/
def infoA : VideoInfo := ⟨"t", "th", 10, [], none, none, none⟩

/-- A cache directory holding a single entry for identifier `abc`, written at
time `0`. -/
def cacheWithAbc : CacheFS :=
  fun k => if k = get_cache_key "abc" then some ⟨0, infoA⟩ else none

/-- A rate-limit store in which identity `1.1.1.1` has one recorded call. -/
def storeWithA : RateStore := fun k => if k = "1.1.1.1" then [0] else []

/-- A filesystem with no files at all. -/
def missingFS : FileFS := fun _ => none

/-- A filesystem holding one artifact of three bytes. -/
def artifactFS : FileFS :=
  fun k => if k = "downloads/video.webm" then some [1, 2, 3] else none

/-! ## Helper lemmas -/

/-- Joining the chunk lists produced by `byteChunksAux` recovers the file
contents, provided the fuel covers the length. -/
theorem byteChunksAux_flatten : ∀ (fuel : ℕ) (d : List ℕ), d.length ≤ fuel →
    (byteChunksAux fuel d).flatten = d := by
  intro fuel
  induction fuel with
  | zero =>
    intro d h
    cases d with
    | nil => rfl
    | cons a t => simp at h
  | succ n ih =>
    intro d h
    cases d with
    | nil => rfl
    | cons a t =>
      show ((a :: t).take 8192 ++ (byteChunksAux n ((a :: t).drop 8192)).flatten) = a :: t
      rw [ih]
      · exact List.take_append_drop 8192 (a :: t)
      · rw [List.length_drop]
        simp only [List.length_cons] at h ⊢
        omega

/-- Joining the streamed chunks recovers the file contents. -/
theorem byteChunks_flatten (d : List ℕ) : (byteChunks d).flatten = d :=
  byteChunksAux_flatten d.length d le_rfl

/-- The purged timestamp list is never longer than the stored one. -/
theorem purgeOld_length_le (window now : ℤ) (ts : List ℤ) :
    (purgeOld window now ts).length ≤ ts.length :=
  List.length_filter_le _ ts

/-- Every timestamp surviving the purge is within the window of `now`. -/
theorem purgeOld_mem (window now : ℤ) (ts : List ℤ) :
    ∀ t ∈ purgeOld window now ts, now - t < window := by
  intro t ht
  have := (List.mem_filter.mp ht).2
  exact of_decide_eq_true this

/-- Unfolding lemma: the admission decision of one `check_rate_limit` call. -/
theorem check_rate_limit_admitted (cfg : RateLimitConfig) (now : ℤ) (ip : String)
    (s : RateStore) :
    (check_rate_limit cfg now ip s).admitted
      = !decide ((purgeOld cfg.window_seconds now (s ip)).length ≥ cfg.max_requests) := by
  by_cases h : (purgeOld cfg.window_seconds now (s ip)).length ≥ cfg.max_requests
  · simp [check_rate_limit, h]
  · simp [check_rate_limit, h]

/-- Unfolding lemma: the caller's stored list after one `check_rate_limit` call. -/
theorem check_rate_limit_store_self (cfg : RateLimitConfig) (now : ℤ) (ip : String)
    (s : RateStore) :
    (check_rate_limit cfg now ip s).store ip
      = (if (purgeOld cfg.window_seconds now (s ip)).length ≥ cfg.max_requests
         then purgeOld cfg.window_seconds now (s ip)
         else purgeOld cfg.window_seconds now (s ip) ++ [now]) := by
  by_cases h : (purgeOld cfg.window_seconds now (s ip)).length ≥ cfg.max_requests
  · simp [check_rate_limit, h]
  · simp [check_rate_limit, h]

/-- Unfolding lemma: a `check_rate_limit` call leaves other identities alone. -/
theorem check_rate_limit_store_other (cfg : RateLimitConfig) (now : ℤ) (ip k : String)
    (s : RateStore) (hk : k ≠ ip) :
    (check_rate_limit cfg now ip s).store k = s k := by
  by_cases h : (purgeOld cfg.window_seconds now (s ip)).length ≥ cfg.max_requests
  · simp [check_rate_limit, h, hk]
  · simp [check_rate_limit, h, hk]

/-! ## Claim theorems -/

/-- C2: Every `check_rate_limit` call first purges the identity's timestamps
older than the window; it returns `false` exactly when the purged count has
reached the quota, in which case the new attempt is not recorded, and
otherwise appends the current time and returns `true`.  With quota 2 and a
60-second window, calls from one identity at times 0, 1, 2 are admitted,
admitted, rejected. -/
theorem check_rate_limit_step_spec :
    (∀ (cfg : RateLimitConfig) (now : ℤ) (ip : String) (s : RateStore),
       (check_rate_limit cfg now ip s).admitted
          = !decide ((purgeOld cfg.window_seconds now (s ip)).length ≥ cfg.max_requests)
     ∧ (check_rate_limit cfg now ip s).store ip
          = (if (purgeOld cfg.window_seconds now (s ip)).length ≥ cfg.max_requests
             then purgeOld cfg.window_seconds now (s ip)
             else purgeOld cfg.window_seconds now (s ip) ++ [now]))
  ∧ ((check_rate_limit ⟨60, 2⟩ 0 "X" emptyRateStore).admitted = true
     ∧ (check_rate_limit ⟨60, 2⟩ 1 "X"
          (check_rate_limit ⟨60, 2⟩ 0 "X" emptyRateStore).store).admitted = true
     ∧ (check_rate_limit ⟨60, 2⟩ 2 "X"
          (check_rate_limit ⟨60, 2⟩ 1 "X"
            (check_rate_limit ⟨60, 2⟩ 0 "X" emptyRateStore).store).store).admitted = false) := by
  constructor
  · intro cfg now ip s
    by_cases h : (purgeOld cfg.window_seconds now (s ip)).length ≥ cfg.max_requests
    · simp [check_rate_limit, h]
    · simp [check_rate_limit, h]
  · refine ⟨by decide, by decide, by decide⟩

/-- C9: Two-run noninterference of the rate limiter.  A `check_rate_limit`
call for identity `A` leaves every other identity's stored timestamps
untouched, and the admission decision for identity `B` depends only on `B`'s
own stored timestamps and the current time: two stores agreeing on `B` give
the same decision for `B`. -/
theorem check_rate_limit_noninterference :
    ∀ (cfg : RateLimitConfig) (now : ℤ) (A B : String) (s s1 s2 : RateStore),
      (B ≠ A → (check_rate_limit cfg now A s).store B = s B)
    ∧ (s1 B = s2 B →
        (check_rate_limit cfg now B s1).admitted
          = (check_rate_limit cfg now B s2).admitted) := by
  intro cfg now A B s s1 s2
  constructor
  · intro hBA
    by_cases h : (purgeOld cfg.window_seconds now (s A)).length ≥ cfg.max_requests
    · simp [check_rate_limit, h, hBA]
    · simp [check_rate_limit, h, hBA]
  · intro h12
    by_cases h : (purgeOld cfg.window_seconds now (s2 B)).length ≥ cfg.max_requests
    · simp [check_rate_limit, h12, h]
    · simp [check_rate_limit, h12, h]

/-- Witness for C9 at concrete inputs: a call for identity `1.1.1.1` does not
change the entry of `2.2.2.2`, and stores differing only at `1.1.1.1` give
the same decision for `2.2.2.2`. -/
theorem check_rate_limit_noninterference_witness :
    ("2.2.2.2" ≠ "1.1.1.1"
      ∧ (check_rate_limit RATE_LIMIT 5 "1.1.1.1" emptyRateStore).store "2.2.2.2"
          = emptyRateStore "2.2.2.2")
  ∧ (emptyRateStore "2.2.2.2" = storeWithA "2.2.2.2"
      ∧ (check_rate_limit RATE_LIMIT 5 "2.2.2.2" emptyRateStore).admitted
          = (check_rate_limit RATE_LIMIT 5 "2.2.2.2" storeWithA).admitted) :=
  ⟨⟨by decide,
    (check_rate_limit_noninterference RATE_LIMIT 5 "1.1.1.1" "2.2.2.2"
      emptyRateStore emptyRateStore storeWithA).1 (by decide)⟩,
   ⟨rfl,
    (check_rate_limit_noninterference RATE_LIMIT 5 "1.1.1.1" "2.2.2.2"
      emptyRateStore emptyRateStore storeWithA).2 rfl⟩⟩

/-- C10: Invariant kept by every `check_rate_limit` call: if the identity's
stored list had at most `max_requests` entries before the call, then after
the call it still has at most `max_requests` entries, every stored timestamp
is within `window_seconds` of the call time, and a rejected call never grows
the list. -/
theorem check_rate_limit_invariant :
    ∀ (cfg : RateLimitConfig) (now : ℤ) (ip : String) (s : RateStore),
      0 < cfg.window_seconds → (s ip).length ≤ cfg.max_requests →
      (((check_rate_limit cfg now ip s).store ip).length ≤ cfg.max_requests
      ∧ (∀ t ∈ (check_rate_limit cfg now ip s).store ip,
            now - t < cfg.window_seconds)
      ∧ ((check_rate_limit cfg now ip s).admitted = false →
          ((check_rate_limit cfg now ip s).store ip).length ≤ (s ip).length)) := by
  intro cfg now ip s hw hlen
  have hple := purgeOld_length_le cfg.window_seconds now (s ip)
  rw [check_rate_limit_store_self, check_rate_limit_admitted]
  by_cases h : (purgeOld cfg.window_seconds now (s ip)).length ≥ cfg.max_requests
  · rw [if_pos h]
    refine ⟨le_trans hple hlen, fun t ht => purgeOld_mem _ _ _ t ht, fun _ => hple⟩
  · rw [if_neg h]
    refine ⟨?_, ?_, ?_⟩
    · have hlt : (purgeOld cfg.window_seconds now (s ip)).length < cfg.max_requests :=
        lt_of_not_ge h
      simp only [List.length_append, List.length_cons, List.length_nil]
      omega
    · intro t ht
      rcases List.mem_append.mp ht with hmem | hnow
      · exact purgeOld_mem _ _ _ t hmem
      · have ht' : t = now := List.mem_singleton.mp hnow
        rw [ht']
        simpa using hw
    · intro habs
      simp [h] at habs

/-- Witness for C10 at concrete inputs: a positive window and a store within
quota before the call. -/
theorem check_rate_limit_invariant_witness :
    (0 < RATE_LIMIT.window_seconds ∧ (emptyRateStore "X").length ≤ RATE_LIMIT.max_requests)
  ∧ (((check_rate_limit RATE_LIMIT 7 "X" emptyRateStore).store "X").length
        ≤ RATE_LIMIT.max_requests
     ∧ (∀ t ∈ (check_rate_limit RATE_LIMIT 7 "X" emptyRateStore).store "X",
           (7 : ℤ) - t < RATE_LIMIT.window_seconds)
     ∧ ((check_rate_limit RATE_LIMIT 7 "X" emptyRateStore).admitted = false →
         ((check_rate_limit RATE_LIMIT 7 "X" emptyRateStore).store "X").length
           ≤ (emptyRateStore "X").length)) :=
  ⟨⟨by decide, by decide⟩,
   check_rate_limit_invariant RATE_LIMIT 7 "X" emptyRateStore (by decide) (by decide)⟩

/-- C5: A cache lookup for an entry written `ttl` (one hour) or more in the
past returns absent, and the lookup does not delete the stale entry: the
file still holds the entry after the call. -/
theorem get_cached_info_stale :
    ∀ (cfs : CacheFS) (now : ℤ) (vid : String) (e : CacheEntry),
      cfs (get_cache_key vid) = some e → 3600 ≤ now - e.cache_time →
      ((get_cached_info cfs now vid).1 = none
      ∧ (get_cached_info cfs now vid).2 (get_cache_key vid) = some e) := by
  intro cfs now vid e he hstale
  have hnot : ¬ (now - e.cache_time < 3600) := not_lt.mpr hstale
  refine ⟨?_, ?_⟩
  · simp [get_cached_info, he, hnot]
  · simpa [get_cached_info] using he

/-- Witness for C5: an entry written at time 0, looked up at time 3600. -/
theorem get_cached_info_stale_witness :
    (cacheWithAbc (get_cache_key "abc") = some ⟨0, infoA⟩
      ∧ (3600 : ℤ) ≤ 3600 - (0 : ℤ))
  ∧ ((get_cached_info cacheWithAbc 3600 "abc").1 = none
     ∧ (get_cached_info cacheWithAbc 3600 "abc").2 (get_cache_key "abc")
         = some ⟨0, infoA⟩) :=
  ⟨⟨rfl, by decide⟩,
   get_cached_info_stale cacheWithAbc 3600 "abc" ⟨0, infoA⟩ rfl (by decide)⟩

/-- C8: `put` followed by `get` within the ttl window returns the stored
payload. -/
theorem cache_put_get_roundtrip :
    ∀ (cfs : CacheFS) (t0 t1 : ℤ) (vid : String) (v : VideoInfo),
      t1 - t0 < 3600 →
      (get_cached_info (save_cache_info cfs t0 vid v) t1 vid).1 = some v := by
  intro cfs t0 t1 vid v h
  simp [get_cached_info, save_cache_info, h]

/-- Witness for C8: `put` at time 0, `get` at time 1. -/
theorem cache_put_get_roundtrip_witness :
    ((1 : ℤ) - 0 < 3600)
  ∧ (get_cached_info (save_cache_info emptyCacheFS 0 "abc" infoA) 1 "abc").1
      = some infoA :=
  ⟨by decide, cache_put_get_roundtrip emptyCacheFS 0 1 "abc" infoA (by decide)⟩

/-- C4 counterexample: the claim fails on the code in two ways.  A
youtube.com URL with no `v` parameter derives the EMPTY identifier, which is
not rejected: the request proceeds to the engine and succeeds.  A URL on a
foreign host does fail before the engine call, but the `ValueError` is
caught by the blanket `except Exception` and surfaced as HTTP 500 (a server
error), not as an `InvalidURL` client error. -/
theorem get_video_info_validation_cex :
    ((get_video_info urlNoV emptyCacheFS 0 (.ok rawEmpty)).response
        = .success (shapeInfo rawEmpty)
     ∧ (get_video_info urlNoV emptyCacheFS 0 (.ok rawEmpty)).engineCalled = true)
  ∧ (get_video_info urlBadHost emptyCacheFS 0 (.ok rawEmpty)).response
      = .httpError 500 "An unexpected error occurred: Invalid YouTube URL" :=
  ⟨⟨rfl, rfl⟩, rfl⟩

/-- C4 amended: whenever the content identifier cannot be derived at all
(the `video_id` property raises), the request fails before any
extraction-engine call, surfaced as HTTP 500 `InternalFailure` — not as an
`InvalidURL` client error; an empty derived identifier is never rejected. -/
theorem get_video_info_underivable_id :
    ∀ (u : ParsedUrl) (cfs : CacheFS) (now : ℤ) (eng : EngineInfo) (msg : String),
      video_id u = Except.error msg →
      ((get_video_info u cfs now eng).response
          = .httpError 500 ("An unexpected error occurred: " ++ msg)
      ∧ (get_video_info u cfs now eng).engineCalled = false) := by
  intro u cfs now eng msg h
  simp [get_video_info, h]

/-- Witness for C4 amended: a URL on host `example.com`. -/
theorem get_video_info_underivable_id_witness :
    video_id urlBadHost = Except.error "Invalid YouTube URL"
  ∧ ((get_video_info urlBadHost emptyCacheFS 0 (.ok rawEmpty)).response
        = .httpError 500 ("An unexpected error occurred: " ++ "Invalid YouTube URL")
     ∧ (get_video_info urlBadHost emptyCacheFS 0 (.ok rawEmpty)).engineCalled = false) :=
  ⟨rfl,
   get_video_info_underivable_id urlBadHost emptyCacheFS 0 (.ok rawEmpty)
     "Invalid YouTube URL" rfl⟩

/-- C6: On a cache miss with a successful engine call, the returned and
cached `VideoInfo` keeps exactly the renditions whose `ext` lies in the
allow-list: of `N` renditions with `M` outside the list, `N - M` remain, and
every retained rendition's `ext` is in the allow-list. -/
theorem get_video_info_format_filtering :
    ∀ (u : ParsedUrl) (vid : String) (cfs : CacheFS) (now : ℤ) (raw : RawInfo),
      video_id u = Except.ok vid →
      (get_cached_info cfs now vid).1 = none →
      ((get_video_info u cfs now (.ok raw)).response = .success (shapeInfo raw)
      ∧ (get_video_info u cfs now (.ok raw)).cacheAfter (get_cache_key vid)
          = some ⟨now, shapeInfo raw⟩
      ∧ (shapeInfo raw).formats.length
          = raw.formats.length - (raw.formats.filter (fun f => ! allowedExt f)).length
      ∧ ((shapeInfo raw).formats.all
            (fun g => (["mp4", "webm", "m4a", "mp3"] : List String).contains g.ext))
          = true) := by
  intro u vid cfs now raw hvid hmiss
  refine ⟨?_, ?_, ?_, ?_⟩
  · simp [get_video_info, hvid, hmiss]
  · simp [get_video_info, hvid, hmiss, save_cache_info]
  · have htot := List.length_eq_length_filter_add (l := raw.formats) allowedExt
    simp only [shapeInfo, List.length_map]
    omega
  · rw [List.all_eq_true]
    intro g hg
    simp only [shapeInfo, List.mem_map] at hg
    obtain ⟨f, hf, rfl⟩ := hg
    have hall := (List.mem_filter.mp hf).2
    unfold allowedExt at hall
    cases hx : f.ext with
    | none => rw [hx] at hall; exact absurd hall (by simp)
    | some e =>
      rw [hx] at hall
      simp only [shapeFormat, hx, Option.getD_some]
      simpa using hall

/-- Witness for C6: three engine renditions — `mp4`, `flv`, and one with no
`ext` — of which exactly the `mp4` one is kept and cached. -/
theorem get_video_info_format_filtering_witness :
    (video_id urlGood = Except.ok "abc"
      ∧ (get_cached_info emptyCacheFS 0 "abc").1 = none)
  ∧ ((get_video_info urlGood emptyCacheFS 0 (.ok rawMixed)).response
        = .success (shapeInfo rawMixed)
     ∧ (get_video_info urlGood emptyCacheFS 0 (.ok rawMixed)).cacheAfter
          (get_cache_key "abc") = some ⟨0, shapeInfo rawMixed⟩
     ∧ (shapeInfo rawMixed).formats.length
         = rawMixed.formats.length
           - (rawMixed.formats.filter (fun f => ! allowedExt f)).length
     ∧ ((shapeInfo rawMixed).formats.all
           (fun g => (["mp4", "webm", "m4a", "mp3"] : List String).contains g.ext))
         = true) :=
  ⟨⟨rfl, rfl⟩,
   get_video_info_format_filtering urlGood "abc" emptyCacheFS 0 rawMixed rfl rfl⟩

/-- C3: Evaluation of `download_video` at the failing input — the engine
reports success but no file exists at the expected path.  The code MEANS to
fail with 404 `ArtifactMissing` (line 238 raises
`HTTPException(404, "File not found after download")`), and no file-deletion
error is raised on this path; but the blanket `except Exception` on line 258
catches the handler's own `HTTPException` and re-raises it as HTTP 500, so
the client receives 500, not the 404 the claim states. -/
theorem download_missing_artifact_is_500 :
    download_video missingFS (.ok "downloads/video.mp4")
      = .httpError 500 "An unexpected error occurred: 404: File not found after download"
  ∧ download_video missingFS (.ok "downloads/video.mp4")
      ≠ .httpError 404 "File not found after download" :=
  ⟨rfl, by decide⟩

/-- C1 counterexample: the artifact is NOT deleted on every exit path of the
streaming phase.  With a three-byte artifact on disk, a consumer disconnect
before the first chunk — and likewise an error after one chunk — leaves the
artifact file in place: it outlives its owning request. -/
theorem iterfile_early_exit_keeps_artifact :
    (iterfile artifactFS "downloads/video.webm" (.disconnectAt 0)).fsAfter
        "downloads/video.webm" = some [1, 2, 3]
  ∧ (iterfile artifactFS "downloads/video.webm" (.errorAt 1)).fsAfter
        "downloads/video.webm" = some [1, 2, 3] :=
  ⟨rfl, rfl⟩

/-- C1 amended: the artifact file is deleted (exactly once) when streaming
runs to normal completion; but `os.unlink` stands after the `with` block and
not in a `finally`, so on an error raised mid-stream or an early consumer
disconnect the deletion is skipped and the artifact survives the request. -/
theorem iterfile_cleanup_only_on_normal_completion :
    ∀ (fs : FileFS) (fname : String) (d : List ℕ), fs fname = some d →
      ((iterfile fs fname .normal).fsAfter fname = none
      ∧ (∀ n, (iterfile fs fname (.errorAt n)).fsAfter fname = some d)
      ∧ (∀ n, (iterfile fs fname (.disconnectAt n)).fsAfter fname = some d)) := by
  intro fs fname d h
  refine ⟨?_, fun n => h, fun n => h⟩
  simp [iterfile, h]

/-- Witness for C1 amended: the three exit modes on a concrete artifact. -/
theorem iterfile_cleanup_only_on_normal_completion_witness :
    artifactFS "downloads/video.webm" = some [1, 2, 3]
  ∧ (iterfile artifactFS "downloads/video.webm" .normal).fsAfter
      "downloads/video.webm" = none
  ∧ (iterfile artifactFS "downloads/video.webm" (.errorAt 2)).fsAfter
      "downloads/video.webm" = some [1, 2, 3]
  ∧ (iterfile artifactFS "downloads/video.webm" (.disconnectAt 1)).fsAfter
      "downloads/video.webm" = some [1, 2, 3] :=
  ⟨rfl,
   (iterfile_cleanup_only_on_normal_completion artifactFS "downloads/video.webm"
      [1, 2, 3] rfl).1,
   (iterfile_cleanup_only_on_normal_completion artifactFS "downloads/video.webm"
      [1, 2, 3] rfl).2.1 2,
   (iterfile_cleanup_only_on_normal_completion artifactFS "downloads/video.webm"
      [1, 2, 3] rfl).2.2 1⟩

/-- C7: When the engine has produced an artifact and the consumer drains the
stream to normal completion, the concatenation of the (finitely many)
streamed chunks equals the artifact's original bytes, and afterwards the
artifact no longer exists on storage. -/
theorem stream_concatenation_and_cleanup :
    ∀ (fs : FileFS) (fname : String) (d : List ℕ), fs fname = some d →
      ((iterfile fs fname .normal).sent.flatten = d
      ∧ (iterfile fs fname .normal).fsAfter fname = none) := by
  intro fs fname d h
  constructor
  · simp [iterfile, h, byteChunks_flatten]
  · simp [iterfile, h]

/-- Witness for C7: a three-byte artifact streams back as exactly its bytes
and is gone afterwards. -/
theorem stream_concatenation_and_cleanup_witness :
    artifactFS "downloads/video.webm" = some [1, 2, 3]
  ∧ ((iterfile artifactFS "downloads/video.webm" .normal).sent.flatten = [1, 2, 3]
     ∧ (iterfile artifactFS "downloads/video.webm" .normal).fsAfter
         "downloads/video.webm" = none) :=
  ⟨rfl,
   stream_concatenation_and_cleanup artifactFS "downloads/video.webm" [1, 2, 3] rfl⟩

end YTDL
